import Mathlib

/-!
Shallow embedding of the Sparkify data-lake ETL pipeline (src/etl.py).

The pipeline reads song and log records (JSON with explicit schemas),
filters log records to NextSong events with a non-empty userId, and derives
five tables: songs, artists, users, time, songplays.  Tables are modelled
as Lists of row structures; SQL DISTINCT / dropDuplicates is List.dedup;
SQL equality (null-rejecting) on nullable columns is `optEq` over Option.
Decimal columns are declared DecimalType() = Decimal(10, 0) in the source,
so their values are scale-0 decimals, modelled as Int.  Timestamps are
epoch microseconds (the engine's timestamp representation); the local
timezone of the executing process is an explicit offset parameter `tz`
in seconds.
-/

/-- Engine column types appearing in the two schemas of etl.py. -/
inductive SparkType
  | SInt
  | SStr
  | SLong
  | SDecimal (precision : Nat) (scale : Nat)
  deriving DecidableEq

/-- DecimalType() with PySpark's default precision 10 and scale 0,
the type used for artist_latitude, artist_longitude, duration, length. -/
def Decimal : SparkType := .SDecimal 10 0

/-- One field of a StructType schema: name, type, nullable flag. -/
structure SField where
  name : String
  dtype : SparkType
  nullable : Bool
  deriving DecidableEq

/-- song_schema from process_song_data (field order as in the source). -/
def song_schema : List SField :=
  [ ⟨"num_songs", .SInt, true⟩,
    ⟨"artist_id", .SStr, true⟩,
    ⟨"artist_latitude", Decimal, true⟩,
    ⟨"artist_longitude", Decimal, true⟩,
    ⟨"artist_location", .SStr, true⟩,
    ⟨"artist_name", .SStr, true⟩,
    ⟨"song_id", .SStr, true⟩,
    ⟨"title", .SStr, true⟩,
    ⟨"duration", Decimal, true⟩,
    ⟨"year", .SInt, true⟩ ]

/-- log_schema from process_log_data (field order as in the source). -/
def log_schema : List SField :=
  [ ⟨"artist", .SStr, true⟩,
    ⟨"auth", .SStr, true⟩,
    ⟨"firstName", .SStr, true⟩,
    ⟨"gender", .SStr, true⟩,
    ⟨"itemInSession", .SInt, true⟩,
    ⟨"lastName", .SStr, true⟩,
    ⟨"length", Decimal, true⟩,
    ⟨"level", .SStr, true⟩,
    ⟨"location", .SStr, true⟩,
    ⟨"method", .SStr, true⟩,
    ⟨"page", .SStr, true⟩,
    ⟨"registration", .SLong, true⟩,
    ⟨"sessionId", .SInt, true⟩,
    ⟨"song", .SStr, true⟩,
    ⟨"status", .SInt, true⟩,
    ⟨"ts", .SLong, true⟩,
    ⟨"userAgent", .SStr, true⟩,
    ⟨"userId", .SStr, true⟩ ]

/-- Is a schema field decimal-typed? -/
def isDecimalField (f : SField) : Bool :=
  match f.dtype with
  | .SDecimal _ _ => true
  | _ => false

/-- A rational is representable as a decimal of the given scale when it is
an integer multiple of 10 ^ (-scale). -/
def decRepresentable (scale : Nat) (q : ℚ) : Prop :=
  ∃ n : ℤ, q = (n : ℚ) / (10 : ℚ) ^ scale

/-- A raw song record conforming to song_schema.  All fields nullable;
decimal columns (scale 0) carry integer values. -/
structure SongRecord where
  num_songs : Option Int
  artist_id : Option String
  artist_latitude : Option Int
  artist_longitude : Option Int
  artist_location : Option String
  artist_name : Option String
  song_id : Option String
  title : Option String
  duration : Option Int
  year : Option Int
  deriving DecidableEq

/-- A raw log record conforming to log_schema (userId still a string). -/
structure LogRecord where
  artist : Option String
  auth : Option String
  firstName : Option String
  gender : Option String
  itemInSession : Option Int
  lastName : Option String
  length : Option Int
  level : Option String
  location : Option String
  method : Option String
  page : Option String
  registration : Option Int
  sessionId : Option Int
  song : Option String
  status : Option Int
  ts : Option Int
  userAgent : Option String
  userId : Option String
  deriving DecidableEq

/-- A log record after the withColumn cast of userId to IntegerType. -/
structure Event where
  artist : Option String
  auth : Option String
  firstName : Option String
  gender : Option String
  itemInSession : Option Int
  lastName : Option String
  length : Option Int
  level : Option String
  location : Option String
  method : Option String
  page : Option String
  registration : Option Int
  sessionId : Option Int
  song : Option String
  status : Option Int
  ts : Option Int
  userAgent : Option String
  userId : Option Int
  deriving DecidableEq

/-- SQL equality on nullable columns: TRUE only when both sides are
non-null and equal; any comparison involving NULL is not TRUE. -/
def optEq {α : Type} [BEq α] : Option α → Option α → Bool
  | some x, some y => x == y
  | _, _ => false

/-- The filter of process_log_data, line 137 of etl.py:
(page == "NextSong") AND (userId != "").  Both conjuncts are SQL
comparisons, so a NULL page or NULL userId fails the filter. -/
def checkFilter (e : LogRecord) : Bool :=
  (e.page == some "NextSong") &&
    (match e.userId with
     | some u => u != ""
     | none => false)

/-- Digit-string accumulator for the SQL string-to-int cast. -/
def parseDigits : List Char → Nat → Option Nat
  | [], acc => some acc
  | c :: cs, acc =>
    if c.isDigit then parseDigits cs (acc * 10 + (c.toNat - 48)) else none

/-- SQL cast of a string to IntegerType: an optional sign followed by
digits; anything else casts to NULL. -/
def strToInt (s : String) : Option Int :=
  match s.data with
  | [] => none
  | '-' :: cs =>
    if cs = [] then none else (parseDigits cs 0).map (fun n => -(n : Int))
  | cs => (parseDigits cs 0).map (fun n => (n : Int))

/-- cast(userId as int): parses the string, NULL on failure or NULL input. -/
def castUserId (u : Option String) : Option Int :=
  u.bind strToInt

/-- withColumn userId (cast(userId as int)): same record, userId cast. -/
def castEvent (e : LogRecord) : Event :=
  { artist := e.artist, auth := e.auth, firstName := e.firstName,
    gender := e.gender, itemInSession := e.itemInSession,
    lastName := e.lastName, length := e.length, level := e.level,
    location := e.location, method := e.method, page := e.page,
    registration := e.registration, sessionId := e.sessionId,
    song := e.song, status := e.status, ts := e.ts,
    userAgent := e.userAgent, userId := castUserId e.userId }

/-- The filtered, cast log set every later table is built from
(etl.py line 137). -/
def filteredLogs (df : List LogRecord) : List Event :=
  (df.filter checkFilter).map castEvent

/-- A row of the users table. -/
structure UserRow where
  userId : Option Int
  firstName : Option String
  lastName : Option String
  gender : Option String
  level : Option String
  deriving DecidableEq

/-- Projection of a filtered log record onto the users columns. -/
def userRow (e : Event) : UserRow :=
  { userId := e.userId, firstName := e.firstName, lastName := e.lastName,
    gender := e.gender, level := e.level }

/-- users table: select five columns from the filtered set, dropDuplicates
(etl.py line 140). -/
def users_table (df : List LogRecord) : List UserRow :=
  ((filteredLogs df).map userRow).dedup

/-- A row of the songs table. -/
structure SongRow where
  song_id : Option String
  title : Option String
  artist_id : Option String
  year : Option Int
  duration : Option Int
  deriving DecidableEq

/-- Projection of a song record onto the songs columns. -/
def songRow (s : SongRecord) : SongRow :=
  { song_id := s.song_id, title := s.title, artist_id := s.artist_id,
    year := s.year, duration := s.duration }

/-- songs table: select five columns, dropDuplicates (etl.py line 68). -/
def songs_table (sd : List SongRecord) : List SongRow :=
  (sd.map songRow).dedup

/-- A row of the artists table. -/
structure ArtistRow where
  artist_id : Option String
  artist_name : Option String
  artist_location : Option String
  artist_latitude : Option Int
  artist_longitude : Option Int
  deriving DecidableEq

/-- Projection of a song record onto the artists columns. -/
def artistRow (s : SongRecord) : ArtistRow :=
  { artist_id := s.artist_id, artist_name := s.artist_name,
    artist_location := s.artist_location,
    artist_latitude := s.artist_latitude,
    artist_longitude := s.artist_longitude }

/-- artists table: SELECT DISTINCT five columns (etl.py lines 79 to 87). -/
def artists_table (sd : List SongRecord) : List ArtistRow :=
  (sd.map artistRow).dedup

/-- The datetime column of the log view, as epoch microseconds:
datetime.fromtimestamp(ts / 1000) with Python 3 true division keeps the
millisecond remainder, so the stored timestamp is ts * 1000 microseconds
(etl.py line 153).  NULL ts gives NULL. -/
def datetimeMicros (ts : Option Int) : Option Int :=
  ts.map (fun t => t * 1000)

/-- Epoch day number of a local-time second count. -/
def epochDay (t : Int) : Int := t.fdiv 86400

/-- Second within the day of a local-time second count. -/
def secOfDay (t : Int) : Int := t.fmod 86400

/-- hour() of a local-time second count, in 0..23. -/
def hourOfSecs (t : Int) : Int := (secOfDay t).fdiv 3600

/-- Proleptic Gregorian (year, month, day) of an epoch day number,
following the standard days-from-civil inverse used by calendar engines. -/
def civilFromDays (z : Int) : Int × Int × Int :=
  let zs := z + 719468
  let era : Int := zs.fdiv 146097
  let doe : Nat := (zs - era * 146097).toNat
  let yoe : Nat := (doe - doe / 1460 + doe / 36524 - doe / 146096) / 365
  let y : Int := (yoe : Int) + era * 400
  let doy : Nat := doe - (365 * yoe + yoe / 4 - yoe / 100)
  let mp : Nat := (5 * doy + 2) / 153
  let d : Nat := doy - (153 * mp + 2) / 5 + 1
  let m : Nat := if mp < 10 then mp + 3 else mp - 9
  (if m ≤ 2 then y + 1 else y, (m : Int), (d : Int))

/-- year() of a local-time second count. -/
def yearOfSecs (t : Int) : Int := (civilFromDays (epochDay t)).1

/-- month() of a local-time second count, 1..12. -/
def monthOfSecs (t : Int) : Int := (civilFromDays (epochDay t)).2.1

/-- day() of a local-time second count, 1..31. -/
def dayOfSecs (t : Int) : Int := (civilFromDays (epochDay t)).2.2

/-- dayofweek() of a local-time second count: 1 = Sunday .. 7 = Saturday
(epoch day 0 was a Thursday). -/
def dayofweekOfSecs (t : Int) : Int := (epochDay t + 4).emod 7 + 1

/-- weekday() of a local-time second count: 0 = Monday .. 6 = Sunday. -/
def weekdayOfSecs (t : Int) : Int := (epochDay t + 3).emod 7

/-- date_format(datetime, 'EEEE'): the full weekday name. -/
def weekNameOfSecs (t : Int) : String :=
  (["Monday", "Tuesday", "Wednesday", "Thursday", "Friday", "Saturday",
    "Sunday"].getD (weekdayOfSecs t).toNat "")

/-- Local-time second count of an epoch-microsecond timestamp under a
timezone offset tz (seconds east of UTC). -/
def localSecs (tz : Int) (micros : Int) : Int :=
  micros.fdiv 1000000 + tz

/-- A row of the time table (etl.py lines 158 to 168). -/
structure TimeRow where
  datetime : Option Int
  Hour : Option Int
  dayofweek : Option Int
  Week : Option String
  Day : Option Int
  Month : Option Int
  Year : Option Int
  WeekDay : Option Int
  deriving DecidableEq

/-- The time columns derived from one filtered log record's datetime. -/
def timeRow (tz : Int) (e : Event) : TimeRow :=
  let dt := datetimeMicros e.ts
  { datetime := dt,
    Hour := dt.map (fun μ => hourOfSecs (localSecs tz μ)),
    dayofweek := dt.map (fun μ => dayofweekOfSecs (localSecs tz μ)),
    Week := dt.map (fun μ => weekNameOfSecs (localSecs tz μ)),
    Day := dt.map (fun μ => dayOfSecs (localSecs tz μ)),
    Month := dt.map (fun μ => monthOfSecs (localSecs tz μ)),
    Year := dt.map (fun μ => yearOfSecs (localSecs tz μ)),
    WeekDay := dt.map (fun μ => weekdayOfSecs (localSecs tz μ)) }

/-- time table: SELECT (no DISTINCT) the derived columns from the filtered
log view, one output row per view row (etl.py lines 158 to 168). -/
def time_table (tz : Int) (df : List LogRecord) : List TimeRow :=
  (filteredLogs df).map (timeRow tz)

/-- The songplays join predicate (etl.py lines 193 to 195):
e.artist = s.artist_name AND e.length = s.duration AND e.song = s.title,
each an SQL equality, hence never TRUE on NULL. -/
def matchES (e : Event) (s : SongRecord) : Bool :=
  optEq e.artist s.artist_name && optEq e.length s.duration &&
    optEq e.song s.title

/-- A row of the songplays table (column aliases as in the source). -/
structure SongplayRow where
  ts : Option Int
  month : Option Int
  year : Option Int
  userid : Option Int
  level : Option String
  song_id : Option String
  artist_id : Option String
  sessionid : Option Int
  location : Option String
  useragent : Option String
  deriving DecidableEq

/-- Projection of one matching (log event, song) pair onto the songplays
columns (etl.py lines 180 to 189). -/
def projSongplay (tz : Int) (e : Event) (s : SongRecord) : SongplayRow :=
  { ts := e.ts,
    month := (datetimeMicros e.ts).map (fun μ => monthOfSecs (localSecs tz μ)),
    year := (datetimeMicros e.ts).map (fun μ => yearOfSecs (localSecs tz μ)),
    userid := e.userId, level := e.level, song_id := s.song_id,
    artist_id := s.artist_id, sessionid := e.sessionId,
    location := e.location, useragent := e.userAgent }

/-- All projected rows of the inner join, one per matching pair, before
DISTINCT. -/
def songplayPairs (tz : Int) (df : List LogRecord) (sd : List SongRecord) :
    List SongplayRow :=
  (filteredLogs df).flatMap
    (fun e => (sd.filter (fun s => matchES e s)).map (projSongplay tz e))

/-- songplays table: SELECT DISTINCT over the projected join rows
(etl.py lines 178 to 196). -/
def songplays_table (tz : Int) (df : List LogRecord)
    (sd : List SongRecord) : List SongplayRow :=
  (songplayPairs tz df sd).dedup

/-- The five output locations written by one pipeline run. -/
structure Output where
  songs : List SongRow
  artists : List ArtistRow
  users : List UserRow
  time : List TimeRow
  songplays : List SongplayRow
  deriving DecidableEq

/-- One run of main: process_song_data then process_log_data, every write
in overwrite mode, so the previous contents of the output locations are
fully replaced (etl.py lines 75, 94, 147, 175, 202, 205 to 215). -/
def runPipeline (tz : Int) (songData : List SongRecord)
    (logData : List LogRecord) (_prev : Output) : Output :=
  { songs := songs_table songData,
    artists := artists_table songData,
    users := users_table logData,
    time := time_table tz logData,
    songplays := songplays_table tz logData songData }

/-! Concrete sample records used by witnesses and counterexamples. -/

/-- A log record matching the spec's end-to-end example: a NextSong event
for user "10" playing "T1" by "Band", length 210 (scale-0 decimal). -/
def logBase : LogRecord :=
  { artist := some "Band", auth := some "Logged In",
    firstName := some "Ann", gender := some "F", itemInSession := some 0,
    lastName := some "Lee", length := some 210, level := some "free",
    location := some "NYC", method := some "PUT", page := some "NextSong",
    registration := some 1540000000000, sessionId := some 1,
    song := some "T1", status := some 200, ts := some 1541110148796,
    userAgent := some "Mozilla", userId := some "10" }

/-- The matching song record of the spec's end-to-end example. -/
def songBase : SongRecord :=
  { num_songs := some 1, artist_id := some "ARA",
    artist_latitude := some 40, artist_longitude := some (-74),
    artist_location := some "NYC", artist_name := some "Band",
    song_id := some "SOA", title := some "T1", duration := some 210,
    year := some 2003 }

/-- A second log record with the same timestamp but another session. -/
def logB2 : LogRecord := { logBase with sessionId := some 2 }

/-- A second song record sharing (artist_name, duration, title) with
songBase but carrying a different song_id. -/
def song2 : SongRecord := { songBase with song_id := some "SOB" }

/-- The paid-level replay of logBase at a later timestamp. -/
def logPaid : LogRecord :=
  { logBase with level := some "paid", ts := some 1541120148796 }

/-- logBase with a NULL artist field. -/
def logNullArtist : LogRecord := { logBase with artist := none }

/-- songBase with a NULL artist_name field. -/
def songNullArtist : SongRecord := { songBase with artist_name := none }

/-! Helper lemmas shared by the claim theorems. -/

lemma optEq_none_left {α : Type} [BEq α] (y : Option α) :
    optEq (none : Option α) y = false := by
  cases y <;> rfl

lemma optEq_none_right {α : Type} [BEq α] (x : Option α) :
    optEq x (none : Option α) = false := by
  cases x <;> rfl

lemma optEq_left_ne_none {α : Type} [BEq α] {a b : Option α}
    (h : optEq a b = true) : a ≠ none := by
  intro ha
  rw [ha, optEq_none_left] at h
  exact Bool.false_ne_true h

lemma optEq_right_ne_none {α : Type} [BEq α] {a b : Option α}
    (h : optEq a b = true) : b ≠ none := by
  intro hb
  rw [hb, optEq_none_right] at h
  exact Bool.false_ne_true h

lemma mem_filteredLogs {df : List LogRecord} {e : LogRecord}
    (he : e ∈ df) (hf : checkFilter e = true) :
    castEvent e ∈ filteredLogs df := by
  unfold filteredLogs
  exact List.mem_map.mpr ⟨e, List.mem_filter.mpr ⟨he, hf⟩, rfl⟩

lemma filteredLogs_mem_iff {df : List LogRecord} {x : Event} :
    x ∈ filteredLogs df ↔ ∃ e ∈ df, checkFilter e = true ∧ x = castEvent e := by
  unfold filteredLogs
  constructor
  · intro hx
    obtain ⟨e, he, rfl⟩ := List.mem_map.mp hx
    obtain ⟨hd, hf⟩ := List.mem_filter.mp he
    exact ⟨e, hd, hf, rfl⟩
  · rintro ⟨e, he, hf, rfl⟩
    exact List.mem_map.mpr ⟨e, List.mem_filter.mpr ⟨he, hf⟩, rfl⟩

lemma mem_songplays_table {tz : Int} {df : List LogRecord}
    {sd : List SongRecord} {r : SongplayRow} :
    r ∈ songplays_table tz df sd ↔
      ∃ e ∈ filteredLogs df, ∃ s ∈ sd, matchES e s = true ∧
        r = projSongplay tz e s := by
  unfold songplays_table songplayPairs
  rw [List.mem_dedup, List.mem_flatMap]
  constructor
  · rintro ⟨e, he, hr⟩
    obtain ⟨s, hs, rfl⟩ := List.mem_map.mp hr
    obtain ⟨hsd, hm⟩ := List.mem_filter.mp hs
    exact ⟨e, he, s, hsd, hm, rfl⟩
  · rintro ⟨e, he, s, hs, hm, rfl⟩
    exact ⟨e, he, List.mem_map.mpr ⟨s, List.mem_filter.mpr ⟨hs, hm⟩, rfl⟩⟩

lemma localSecs_mul_1000 (tz ts : Int) :
    localSecs tz (ts * 1000) = ts.fdiv 1000 + tz := by
  unfold localSecs
  rw [Int.fdiv_eq_ediv _ (by norm_num), Int.fdiv_eq_ediv _ (by norm_num)]
  omega

/-! Claim theorems. -/

/-- C1: a row appears in the songplays table iff some filtered log record
matches some song record under exact equality on (artist = artist_name,
length = duration, song = title), the row being the projection
{ts, month, year, userId, level, song_id, artist_id, sessionId, location,
userAgent} of that pair; DISTINCT over the full projected tuple makes the
table duplicate-free. -/
theorem songplays_membership (tz : Int) (df : List LogRecord)
    (sd : List SongRecord) (r : SongplayRow) :
    (r ∈ songplays_table tz df sd ↔
      ∃ e ∈ filteredLogs df, ∃ s ∈ sd, matchES e s = true ∧
        r = projSongplay tz e s)
    ∧ (songplays_table tz df sd).Nodup :=
  ⟨mem_songplays_table, List.nodup_dedup _⟩

/-- C5: the songs table holds exactly one row for each distinct
(song_id, title, artist_id, year, duration) tuple occurring in the song
input, and no row for a tuple that does not occur. -/
theorem songs_table_dedup (sd : List SongRecord) (t : SongRow) :
    (songs_table sd).count t = if t ∈ sd.map songRow then 1 else 0 := by
  unfold songs_table
  exact List.count_dedup _ _

/-- C6 amended: the songplays row count is at most the number of matching
(filtered log record, song record) pairs under the join predicate. -/
theorem songplays_count_le_pairs (tz : Int) (df : List LogRecord)
    (sd : List SongRecord) :
    (songplays_table tz df sd).length ≤ (songplayPairs tz df sd).length :=
  (List.dedup_sublist _).length_le

/-- C6 as stated is false: one filtered log record matching two song
records that share (artist_name, duration, title) but differ in song_id
yields two distinct songplays rows, exceeding the count (one) of filtered
log records having at least one match. -/
theorem songplays_exceeds_matched_logs :
    (songplays_table 0 [logBase] [songBase, song2]).length = 2
    ∧ ((filteredLogs [logBase]).filter
        (fun e => [songBase, song2].any (fun s => matchES e s))).length = 1
    ∧ ¬ ((songplays_table 0 [logBase] [songBase, song2]).length ≤
        ((filteredLogs [logBase]).filter
          (fun e => [songBase, song2].any (fun s => matchES e s))).length) := by
  decide

/-- C7: every write is in overwrite mode, so a pipeline run fully replaces
the previous contents of the five output locations; two runs against the
same input (and the same local timezone) produce identical tables, and the
output never depends on what was previously stored. -/
theorem pipeline_idempotent (tz : Int) (sd : List SongRecord)
    (ld : List LogRecord) (prev prev' : Output) :
    runPipeline tz sd ld (runPipeline tz sd ld prev) =
      runPipeline tz sd ld prev
    ∧ runPipeline tz sd ld prev = runPipeline tz sd ld prev' :=
  ⟨rfl, rfl⟩

/-- C9: the decimal-typed fields of the two schemas are exactly
artist_latitude, artist_longitude, duration (song) and length (log), each
declared with the PySpark default precision and scale (10, 0); a scale-0
decimal value is an integer (no fractional digits); and the songplays join
predicate compares length with duration among its three equalities. -/
theorem decimal_fields_scale_zero :
    (song_schema.filter isDecimalField =
      [⟨"artist_latitude", Decimal, true⟩,
       ⟨"artist_longitude", Decimal, true⟩,
       ⟨"duration", Decimal, true⟩])
    ∧ (log_schema.filter isDecimalField = [⟨"length", Decimal, true⟩])
    ∧ Decimal = SparkType.SDecimal 10 0
    ∧ (∀ q : ℚ, decRepresentable 0 q ↔ ∃ n : ℤ, q = (n : ℚ))
    ∧ (∀ e s, matchES e s =
        (optEq e.artist s.artist_name && optEq e.length s.duration &&
          optEq e.song s.title)) := by
  refine ⟨by decide, by decide, rfl, ?_, fun e s => rfl⟩
  intro q
  unfold decRepresentable
  simp

/-- C2: a log record whose page is not "NextSong" or whose userId is the
empty string fails the filter; a record passing the filter is kept with
its userId cast to an integer; and every row of the users, time and
songplays tables arises from a record that passed the filter, projected
after the cast. -/
theorem log_filter_excludes (tz : Int) (df : List LogRecord)
    (sd : List SongRecord) (e : LogRecord) (he : e ∈ df) :
    ((e.page ≠ some "NextSong" ∨ e.userId = some "") → checkFilter e = false)
    ∧ (checkFilter e = true → castEvent e ∈ filteredLogs df ∧
        (castEvent e).userId = castUserId e.userId)
    ∧ (∀ r ∈ users_table df, ∃ a ∈ df, checkFilter a = true ∧
        r = userRow (castEvent a))
    ∧ (∀ r ∈ time_table tz df, ∃ a ∈ df, checkFilter a = true ∧
        r = timeRow tz (castEvent a))
    ∧ (∀ r ∈ songplays_table tz df sd, ∃ a ∈ df, checkFilter a = true ∧
        ∃ s ∈ sd, r = projSongplay tz (castEvent a) s) := by
  refine ⟨?_, fun hf => ⟨mem_filteredLogs he hf, rfl⟩, ?_, ?_, ?_⟩
  · intro h
    unfold checkFilter
    rcases h with hp | hu
    · have hb : (e.page == some "NextSong") = false :=
        beq_eq_false_iff_ne.mpr hp
      rw [hb, Bool.false_and]
    · rw [hu]
      simp
  · intro r hr
    unfold users_table at hr
    rw [List.mem_dedup, List.mem_map] at hr
    obtain ⟨x, hx, rfl⟩ := hr
    obtain ⟨a, ha, hf, rfl⟩ := filteredLogs_mem_iff.mp hx
    exact ⟨a, ha, hf, rfl⟩
  · intro r hr
    unfold time_table at hr
    rw [List.mem_map] at hr
    obtain ⟨x, hx, rfl⟩ := hr
    obtain ⟨a, ha, hf, rfl⟩ := filteredLogs_mem_iff.mp hx
    exact ⟨a, ha, hf, rfl⟩
  · intro r hr
    obtain ⟨x, hx, s, hs, hm, rfl⟩ := mem_songplays_table.mp hr
    obtain ⟨a, ha, hf, rfl⟩ := filteredLogs_mem_iff.mp hx
    exact ⟨a, ha, hf, s, hs, rfl⟩

/-- C2 witness: the filter characterization instantiated on a concrete
one-record corpus. -/
theorem log_filter_excludes_witness :
    logBase ∈ [logBase]
    ∧ (((logBase.page ≠ some "NextSong" ∨ logBase.userId = some "") →
        checkFilter logBase = false)
      ∧ (checkFilter logBase = true →
          castEvent logBase ∈ filteredLogs [logBase] ∧
          (castEvent logBase).userId = castUserId logBase.userId)
      ∧ (∀ r ∈ users_table [logBase], ∃ a ∈ [logBase],
          checkFilter a = true ∧ r = userRow (castEvent a))
      ∧ (∀ r ∈ time_table 0 [logBase], ∃ a ∈ [logBase],
          checkFilter a = true ∧ r = timeRow 0 (castEvent a))
      ∧ (∀ r ∈ songplays_table 0 [logBase] [songBase], ∃ a ∈ [logBase],
          checkFilter a = true ∧ ∃ s ∈ [songBase],
            r = projSongplay 0 (castEvent a) s)) :=
  ⟨by decide, log_filter_excludes 0 [logBase] [songBase] logBase (by decide)⟩

/-- C3 fails as stated: two filtered log records with the same timestamp
(here, two sessions replaying at the same ts) give the time table two rows
for that datetime, because the time query applies no DISTINCT. -/
theorem time_table_duplicate_datetime :
    (filteredLogs [logBase, logB2]).length = 2
    ∧ (castEvent logBase).ts = (castEvent logB2).ts
    ∧ (time_table 0 [logBase, logB2]).countP
        (fun r => r.datetime == some 1541110148796000) = 2 := by
  decide

/-- C3 amended: the time table has one row per filtered log record (a
datetime occurring in several filtered records occurs in as many rows),
and every column of a row is the corresponding calendar function of its
datetime column. -/
theorem time_table_rows (tz : Int) (df : List LogRecord) :
    (time_table tz df).length = (filteredLogs df).length
    ∧ ∀ r ∈ time_table tz df,
        r.Hour = r.datetime.map (fun μ => hourOfSecs (localSecs tz μ))
        ∧ r.dayofweek =
            r.datetime.map (fun μ => dayofweekOfSecs (localSecs tz μ))
        ∧ r.Week = r.datetime.map (fun μ => weekNameOfSecs (localSecs tz μ))
        ∧ r.Day = r.datetime.map (fun μ => dayOfSecs (localSecs tz μ))
        ∧ r.Month = r.datetime.map (fun μ => monthOfSecs (localSecs tz μ))
        ∧ r.Year = r.datetime.map (fun μ => yearOfSecs (localSecs tz μ))
        ∧ r.WeekDay =
            r.datetime.map (fun μ => weekdayOfSecs (localSecs tz μ)) := by
  constructor
  · unfold time_table
    exact List.length_map _ _
  · intro r hr
    unfold time_table at hr
    obtain ⟨e, he, rfl⟩ := List.mem_map.mp hr
    exact ⟨rfl, rfl, rfl, rfl, rfl, rfl, rfl⟩

/-- C3 witness: the amended row shape instantiated on a concrete corpus. -/
theorem time_table_rows_witness :
    timeRow 0 (castEvent logBase) ∈ time_table 0 [logBase]
    ∧ (timeRow 0 (castEvent logBase)).Hour =
        (timeRow 0 (castEvent logBase)).datetime.map
          (fun μ => hourOfSecs (localSecs 0 μ)) :=
  ⟨by decide, ((time_table_rows 0 [logBase]).2 _ (by decide)).1⟩

/-- C4 fails as stated: the udf divides ts by 1000 with true division, so
the derived datetime keeps the millisecond remainder of ts; at
ts = 1541110148796 the stored timestamp is 1541110148796000 microseconds,
not the whole second floor(1541110148796 / 1000). -/
theorem datetime_not_floor :
    datetimeMicros (castEvent logBase).ts = some 1541110148796000
    ∧ datetimeMicros (castEvent logBase).ts ≠
        some ((1541110148796 : Int).fdiv 1000 * 1000000) := by
  decide

/-- C4 amended: the derived datetime is ts/1000 with the millisecond
remainder kept (ts * 1000 microseconds), and its hour, day, month and year
equal the calendar breakdown of floor(ts / 1000) interpreted as epoch
seconds under the process timezone offset. -/
theorem time_fields_floor (tz ts : Int) (e : Event) (h : e.ts = some ts) :
    (timeRow tz e).datetime = some (ts * 1000)
    ∧ (timeRow tz e).Hour = some (hourOfSecs (ts.fdiv 1000 + tz))
    ∧ (timeRow tz e).Day = some (dayOfSecs (ts.fdiv 1000 + tz))
    ∧ (timeRow tz e).Month = some (monthOfSecs (ts.fdiv 1000 + tz))
    ∧ (timeRow tz e).Year = some (yearOfSecs (ts.fdiv 1000 + tz)) := by
  have key := localSecs_mul_1000 tz ts
  simp [timeRow, datetimeMicros, h, key]

/-- C4 witness: the floor breakdown at the spec's concrete timestamp. -/
theorem time_fields_floor_witness :
    (castEvent logBase).ts = some 1541110148796
    ∧ ((timeRow 0 (castEvent logBase)).datetime =
        some (1541110148796 * 1000)
      ∧ (timeRow 0 (castEvent logBase)).Hour =
          some (hourOfSecs ((1541110148796 : Int).fdiv 1000 + 0))
      ∧ (timeRow 0 (castEvent logBase)).Day =
          some (dayOfSecs ((1541110148796 : Int).fdiv 1000 + 0))
      ∧ (timeRow 0 (castEvent logBase)).Month =
          some (monthOfSecs ((1541110148796 : Int).fdiv 1000 + 0))
      ∧ (timeRow 0 (castEvent logBase)).Year =
          some (yearOfSecs ((1541110148796 : Int).fdiv 1000 + 0))) :=
  ⟨rfl, time_fields_floor 0 1541110148796 (castEvent logBase) rfl⟩

/-- C8: two filtered log records for the same user that agree on the other
projected fields but carry level free and then paid yield two distinct
rows of the users table: deduplication is on the full projected tuple and
level is not collapsed to a most recent value. -/
theorem users_level_change (df : List LogRecord) (e1 e2 : LogRecord)
    (h1 : e1 ∈ df) (h2 : e2 ∈ df)
    (hf1 : checkFilter e1 = true) (hf2 : checkFilter e2 = true)
    (_hu : e1.userId = e2.userId) (_hfn : e1.firstName = e2.firstName)
    (_hln : e1.lastName = e2.lastName) (_hg : e1.gender = e2.gender)
    (hl1 : e1.level = some "free") (hl2 : e2.level = some "paid") :
    userRow (castEvent e1) ≠ userRow (castEvent e2)
    ∧ userRow (castEvent e1) ∈ users_table df
    ∧ userRow (castEvent e2) ∈ users_table df
    ∧ (users_table df).Nodup := by
  refine ⟨?_, ?_, ?_, List.nodup_dedup _⟩
  · intro hEq
    have hlev := congrArg UserRow.level hEq
    simp [userRow, castEvent, hl1, hl2] at hlev
  · unfold users_table
    rw [List.mem_dedup]
    exact List.mem_map.mpr ⟨castEvent e1, mem_filteredLogs h1 hf1, rfl⟩
  · unfold users_table
    rw [List.mem_dedup]
    exact List.mem_map.mpr ⟨castEvent e2, mem_filteredLogs h2 hf2, rfl⟩

/-- C8 witness: a concrete free-then-paid pair of log records. -/
theorem users_level_change_witness :
    (logBase ∈ [logBase, logPaid] ∧ logPaid ∈ [logBase, logPaid]
      ∧ checkFilter logBase = true ∧ checkFilter logPaid = true
      ∧ logBase.userId = logPaid.userId
      ∧ logBase.firstName = logPaid.firstName
      ∧ logBase.lastName = logPaid.lastName
      ∧ logBase.gender = logPaid.gender
      ∧ logBase.level = some "free" ∧ logPaid.level = some "paid")
    ∧ (userRow (castEvent logBase) ≠ userRow (castEvent logPaid)
      ∧ userRow (castEvent logBase) ∈ users_table [logBase, logPaid]
      ∧ userRow (castEvent logPaid) ∈ users_table [logBase, logPaid]
      ∧ (users_table [logBase, logPaid]).Nodup) :=
  ⟨by decide,
   users_level_change [logBase, logPaid] logBase logPaid (by decide)
     (by decide) (by decide) (by decide) (by decide) (by decide) (by decide)
     (by decide) (by decide) (by decide)⟩

/-- C10: a filtered log record with a NULL artist, song or length matches
no song record (the SQL equality is never TRUE on NULL, even against a
song record that is NULL in the corresponding field), and every songplays
row arises from a pair whose six compared fields are all non-NULL. -/
theorem null_join_fields_excluded (tz : Int) (df : List LogRecord)
    (sd : List SongRecord) (e : Event) (_he : e ∈ filteredLogs df)
    (hnull : e.artist = none ∨ e.song = none ∨ e.length = none) :
    (∀ s ∈ sd, matchES e s = false)
    ∧ (∀ r ∈ songplays_table tz df sd, ∃ a ∈ filteredLogs df, ∃ s ∈ sd,
        matchES a s = true ∧ a.artist ≠ none ∧ a.song ≠ none ∧
        a.length ≠ none ∧ s.artist_name ≠ none ∧ s.title ≠ none ∧
        s.duration ≠ none ∧ r = projSongplay tz a s) := by
  constructor
  · intro s _
    rcases hnull with h | h | h <;> simp [matchES, h, optEq_none_left]
  · intro r hr
    obtain ⟨a, ha, s, hs, hm, rfl⟩ := mem_songplays_table.mp hr
    have hm' := hm
    unfold matchES at hm'
    rw [Bool.and_eq_true, Bool.and_eq_true] at hm'
    obtain ⟨⟨q1, q2⟩, q3⟩ := hm'
    exact ⟨a, ha, s, hs, hm, optEq_left_ne_none q1, optEq_left_ne_none q3,
      optEq_left_ne_none q2, optEq_right_ne_none q1, optEq_right_ne_none q3,
      optEq_right_ne_none q2, rfl⟩

/-- C10 witness: a concrete NULL-artist log record against a song corpus
that includes a NULL-artist_name song record. -/
theorem null_join_fields_excluded_witness :
    (castEvent logNullArtist ∈ filteredLogs [logNullArtist]
      ∧ ((castEvent logNullArtist).artist = none ∨
          (castEvent logNullArtist).song = none ∨
          (castEvent logNullArtist).length = none))
    ∧ ((∀ s ∈ [songBase, songNullArtist],
          matchES (castEvent logNullArtist) s = false)
      ∧ (∀ r ∈ songplays_table 0 [logNullArtist] [songBase, songNullArtist],
          ∃ a ∈ filteredLogs [logNullArtist],
            ∃ s ∈ [songBase, songNullArtist],
              matchES a s = true ∧ a.artist ≠ none ∧ a.song ≠ none ∧
              a.length ≠ none ∧ s.artist_name ≠ none ∧ s.title ≠ none ∧
              s.duration ≠ none ∧ r = projSongplay 0 a s)) :=
  ⟨⟨by decide, by decide⟩,
   null_join_fields_excluded 0 [logNullArtist] [songBase, songNullArtist]
     (castEvent logNullArtist) (by decide) (by decide)⟩
